import Mathlib

/-!
Verification of the QuizWhiz JSON Toolkit extraction engine
(`quiz_toolkit.py`) against its natural-language specification.

The development is a shallow embedding of the Python source:

* text is modelled as `List Char` (named `Str` below); Python string
  slicing, `str.find`, `str.strip`, `str.split` and `in` are given
  direct executable counterparts;
* the fixed regular expressions of the source are embedded either as
  token sequences over a small backtracking matcher (`Tok`, `matchToks`)
  — literals, greedy character-class stars `[^x]*` and a greedy capture
  `([^x]+)` are the only constructs those patterns use — or, for the
  keyword/pattern tables of the difficulty classifier, as lists of
  literal fragments separated by `.*` gaps (a pattern `a.*b` matches a
  string iff some newline-free line contains `a` and then `b`, because
  `.` does not match a newline);
* `while` loops with a cursor are transcribed as fuel-indexed recursive
  functions; the fuel supplied by each wrapper strictly exceeds the
  number of iterations the Python loop can perform (every iteration
  advances the cursor), so the fuel never runs out;
* the external collaborators of the engine (the filesystem read, the
  `quopri`/UTF-8 decode, the progress callback) enter as parameters:
  the decode is a `Str → Except Str Str` whose `error` case models a
  raised exception, and the callback is a `Str → Except Str Unit` for
  the same reason;
* Python character classes: `\s` and `str.strip`/`str.split` whitespace
  are modelled by the ASCII whitespace set, and `str.lower` by the ASCII
  `Char.toLower`; all pattern and keyword constants in the source are
  ASCII, so on the markup conventions the engine targets these agree
  with Python's Unicode versions.
-/

namespace QuizToolkit

/-- Text is a list of characters, so that slicing and searching are
structural. -/
abbrev Str := List Char

/-- ASCII whitespace, the character class of Python's `\s` (space, tab,
newline, carriage return, vertical tab, form feed). -/
def pySpace (c : Char) : Bool :=
  c = ' ' || c = '\t' || c = '\n' || c = '\r' || c.toNat = 11 || c.toNat = 12

/-- Python `str.lower()` (ASCII range). -/
def lowerStr (s : Str) : Str := s.map Char.toLower

/-- Python `str.strip()`: drop whitespace from both ends. -/
def pyStrip (s : Str) : Str :=
  ((s.dropWhile pySpace).reverse.dropWhile pySpace).reverse

/-- First index at which `pat` occurs in `s` (Python `s.find(pat)` when
the result is non-negative; `none` models `-1`). -/
def findSub (pat : Str) : Str → Option Nat
  | [] => if pat.isEmpty then some 0 else none
  | c :: rest =>
    if pat.isPrefixOf (c :: rest) then some 0
    else (findSub pat rest).map (· + 1)

/-- Python `s.find(pat, start)` (as an `Option`). -/
def findSubFrom (pat s : Str) (start : Nat) : Option Nat :=
  (findSub pat (s.drop start)).map (· + start)

/-- Python `pat in s`. -/
def hasSub (pat s : Str) : Bool := (findSub pat s).isSome

/-- Python slice `s[a:b]` for `0 ≤ a`, with Python's clamping. -/
def slice (s : Str) (a b : Nat) : Str := (s.take b).drop a

/-- Absolute difference, Python `abs(a - b)` on non-negative ints. -/
def absDiff (a b : Nat) : Nat := max a b - min a b

/-- Number of whitespace-separated words, Python `len(s.split())`.
The Boolean argument records whether the scan is inside a word. -/
def countWordsAux : Str → Bool → Nat
  | [], _ => 0
  | c :: rest, inWord =>
    if pySpace c then countWordsAux rest false
    else (if inWord then 0 else 1) + countWordsAux rest true

/-- Python `len(s.split())`. -/
def countWords (s : Str) : Nat := countWordsAux s false

/-- Split on newline characters; used to model that `.` in the source's
regular expressions (compiled without `DOTALL`) does not cross `\n`. -/
def splitLines : Str → List Str
  | [] => [[]]
  | c :: rest =>
    if c = '\n' then [] :: splitLines rest
    else
      match splitLines rest with
      | [] => [[c]]
      | l :: ls => (c :: l) :: ls

/-! ### A backtracking matcher for the source's fixed tag patterns

Every tag-level regular expression in `quiz_toolkit.py` is a sequence of
string literals, greedy character-class stars (`[^>]*`, `[^"]*`, `\s*`)
and at most one greedy capture `([^<]+)` / `([^"]+)` whose follower is a
literal starting with the excluded character (so the greedy capture
never needs to backtrack).  `matchToks` implements exactly these, with
full backtracking for the stars. -/

/-- One token of a source regular expression. -/
inductive Tok where
  | lit : Str → Tok
  | gstar : (Char → Bool) → Tok
  | gcap : (Char → Bool) → Tok

mutual

/-- Match a token sequence at the head of `s`; returns the list of
captured groups and the remaining suffix.  Greedy stars backtrack via
`starLoopF`.  The fuel bounds the recursion depth, which never exceeds
the number of tokens plus, for each star, the length of its character
run; the wrapper `matchToks` supplies strictly more. -/
def matchToksF : Nat → List Tok → Str → Option (List Str × Str)
  | 0, _, _ => none
  | _ + 1, [], s => some ([], s)
  | fuel + 1, .lit l :: ts, s =>
    if l.isPrefixOf s then matchToksF fuel ts (s.drop l.length) else none
  | fuel + 1, .gstar p :: ts, s => starLoopF fuel ts s (s.takeWhile p).length
  | fuel + 1, .gcap p :: ts, s =>
    let c := s.takeWhile p
    if c.isEmpty then none
    else
      match matchToksF fuel ts (s.drop c.length) with
      | some (cs, r) => some (c :: cs, r)
      | none => none

/-- Greedy star: try consuming `k` characters first, then backtrack. -/
def starLoopF : Nat → List Tok → Str → Nat → Option (List Str × Str)
  | 0, _, _, _ => none
  | fuel + 1, ts, s, 0 => matchToksF fuel ts s
  | fuel + 1, ts, s, k + 1 =>
    match matchToksF fuel ts (s.drop (k + 1)) with
    | some r => some r
    | none => starLoopF fuel ts s k

end

/-- Token-sequence match with sufficient fuel. -/
def matchToks (ts : List Tok) (s : Str) : Option (List Str × Str) :=
  matchToksF ((ts.length + 1) * (s.length + 2)) ts s

/-- Scan helper for `re.search`: try to match at offsets `i, i+1, …`;
returns `(start, captures, end)` of the leftmost match. -/
def findTokMatchAux (ts : List Tok) (s : Str) : Nat → Nat → Option (Nat × List Str × Nat)
  | _, 0 => none
  | i, fuel + 1 =>
    match matchToks ts (s.drop i) with
    | some (cs, rest) => some (i, cs, s.length - rest.length)
    | none => if i < s.length then findTokMatchAux ts s (i + 1) fuel else none

/-- `re.search(pattern, s)` starting the scan at offset `start`. -/
def findTokMatch (ts : List Tok) (s : Str) (start : Nat) : Option (Nat × List Str × Nat) :=
  findTokMatchAux ts s start (s.length + 1 - start)

/-- `re.findall` capture lists: non-overlapping matches scanned left to
right, each next scan resuming at the end of the previous match. -/
def findAllToksAux (ts : List Tok) (s : Str) : Nat → Nat → List (List Str)
  | _, 0 => []
  | i, fuel + 1 =>
    match findTokMatch ts s i with
    | none => []
    | some (st, cs, en) =>
      cs :: findAllToksAux ts s (if st < en then en else en + 1) fuel

/-- All capture lists of `re.findall(pattern, s)`. -/
def findAllCaps (ts : List Tok) (s : Str) : List (List Str) :=
  findAllToksAux ts s 0 (s.length + 1)

/-- All start positions of `re.finditer(lit, s)` for a literal pattern
(non-overlapping, left to right). -/
def findAllLitAux (pat s : Str) : Nat → Nat → List Nat
  | _, 0 => []
  | i, fuel + 1 =>
    match findSubFrom pat s i with
    | none => []
    | some p => p :: findAllLitAux pat s (p + pat.length) fuel

/-- Start positions of all non-overlapping occurrences of `pat`. -/
def findAllLit (pat s : Str) : List Nat := findAllLitAux pat s 0 (s.length + 1)

/-! ### MIME decode stage and block segmentation -/

/-- Character class `[^>]`. -/
def notGt (c : Char) : Bool := c ≠ '>'

/-- Character class `[^"]`. -/
def notQuote (c : Char) : Bool := c ≠ '"'

/-- Character class `[^<]`. -/
def notLt (c : Char) : Bool := c ≠ '<'

/-- Source: `re.search(r'Content-Type: text/html.*?\n\n(.*?)(?=\n--)',
content, re.DOTALL)`, returning group 1.  With `DOTALL` and lazy gaps
this is: the leftmost occurrence of the content-type literal, then the
first `"\n\n"` after it, then the slice up to the first `"\n--"` after
that; if any of the three is missing no later starting point can
succeed either, so the whole search fails. -/
def find_html_part (content : Str) : Option Str :=
  match findSub "Content-Type: text/html".data content with
  | none => none
  | some i =>
    match findSubFrom "\n\n".data content (i + 23) with
    | none => none
    | some j =>
      match findSubFrom "\n--".data content (j + 2) with
      | none => none
      | some k => some (slice content (j + 2) k)

/-- The question-block opening tag, source pattern
`<div[^>]*class="[^"]*Qr7Oae[^"]*"[^>]*role="listitem"[^>]*>`. -/
def question_block_start : List Tok :=
  [.lit "<div".data, .gstar notGt, .lit "class=\"".data, .gstar notQuote,
   .lit "Qr7Oae".data, .gstar notQuote, .lit "\"".data, .gstar notGt,
   .lit "role=\"listitem\"".data, .gstar notGt, .lit ">".data]

/-- Source: `re.findall(question_block_pattern, decoded_html, re.DOTALL)`
where the pattern is the opening tag followed by a lazy `.*?` up to a
lookahead for the next opening tag or end of input.  Each block runs
from one opening-tag match to the next opening-tag match at or past the
end of its own opening tag (the last block runs to end of input), and
the scan resumes at the start of that next tag. -/
def findBlocksAux (s : Str) : Nat → Nat → List Str
  | _, 0 => []
  | i, fuel + 1 =>
    match findTokMatch question_block_start s i with
    | none => []
    | some (st, _, en) =>
      match findTokMatch question_block_start s en with
      | none => [slice s st s.length]
      | some (st2, _, _) => slice s st st2 :: findBlocksAux s st2 fuel

/-- The list of question blocks of a decoded document. -/
def findBlocks (s : Str) : List Str := findBlocksAux s 0 (s.length + 1)

/-! ### Field extraction: question text and options -/

/-- Source: `re.sub(r'<[^>]+>', '', s)` — delete every complete tag. -/
def removeTagsF : Nat → Str → Str
  | 0, s => s
  | _, [] => []
  | fuel + 1, c :: rest =>
    if c = '<' then
      let inside := rest.takeWhile notGt
      if inside.isEmpty then c :: removeTagsF fuel rest
      else
        match rest.drop inside.length with
        | '>' :: after => removeTagsF fuel after
        | _ => c :: removeTagsF fuel rest
    else c :: removeTagsF fuel rest

/-- `re.sub(r'<[^>]+>', '', s)` with sufficient fuel. -/
def removeTags (s : Str) : Str := removeTagsF (s.length + 1) s

/-- Source: `re.sub(r'\s+', ' ', s)` — collapse whitespace runs. -/
def collapseWsF : Nat → Str → Str
  | 0, s => s
  | _, [] => []
  | fuel + 1, c :: rest =>
    if pySpace c then ' ' :: collapseWsF fuel (rest.dropWhile pySpace)
    else c :: collapseWsF fuel rest

/-- `re.sub(r'\s+', ' ', s)` with sufficient fuel. -/
def collapseWs (s : Str) : Str := collapseWsF (s.length + 1) s

/-- Source: `re.sub(r'&nbsp;', ' ', s)`. -/
def replaceNbspF : Nat → Str → Str
  | 0, s => s
  | _, [] => []
  | fuel + 1, c :: rest =>
    if "&nbsp;".data.isPrefixOf (c :: rest) then
      ' ' :: replaceNbspF fuel ((c :: rest).drop 6)
    else c :: replaceNbspF fuel rest

/-- `re.sub(r'&nbsp;', ' ', s)` with sufficient fuel. -/
def replaceNbsp (s : Str) : Str := replaceNbspF (s.length + 1) s

/-- Character class `[\\"]` of the edge-cleaning substitution. -/
def isQuoteBS (c : Char) : Bool := c = '\\' || c = '"'

/-- Source: `re.sub(r'^[\\"]+|[\\"]+$', '', s)` — remove a leading and a
trailing run of backslashes/double quotes.  (At this point in the source
the string contains no newline, so `$` is end of string.) -/
def stripQuotesBS (s : Str) : Str :=
  ((s.dropWhile isQuoteBS).reverse.dropWhile isQuoteBS).reverse

/-- Source: `re.sub(r'^\d+\.\s*', '', s)` — strip a leading enumeration
marker such as `"12. "`. -/
def stripLeadingNumber (s : Str) : Str :=
  let digits := s.takeWhile Char.isDigit
  if digits.isEmpty then s
  else
    match s.drop digits.length with
    | '.' :: rest => rest.dropWhile pySpace
    | _ => s

/-- The question-text opening tag, source pattern
`<span[^>]*class="[^"]*M7eMe[^"]*"[^>]*>`. -/
def question_span_toks : List Tok :=
  [.lit "<span".data, .gstar notGt, .lit "class=\"".data, .gstar notQuote,
   .lit "M7eMe".data, .gstar notQuote, .lit "\"".data, .gstar notGt, .lit ">".data]

/-- The nested-span depth-counting scan of the source (`span_count`,
`pos` cursor over `content`): find the matching `</span>` of the
question span, counting inner `<span` openers; returns the raw inner
text, or `none` when the loop exits without closing. -/
def spanScan : Nat → Str → Nat → Nat → Option Str
  | 0, _, _, _ => none
  | fuel + 1, content, spanCount, pos =>
    if spanCount > 0 ∧ pos < content.length then
      match findSubFrom "</span>".data content pos with
      | none => none
      | some nc =>
        match findSubFrom "<span".data content pos with
        | some no =>
          if no < nc then spanScan fuel content (spanCount + 1) (no + 5)
          else if spanCount = 1 then some (content.take nc)
          else spanScan fuel content (spanCount - 1) (nc + 7)
        | none =>
          if spanCount = 1 then some (content.take nc)
          else spanScan fuel content (spanCount - 1) (nc + 7)
    else none

/-- Decimal digits of a natural number, for the source's f-strings. -/
def natToStr (n : Nat) : Str := Nat.toDigits 10 n

/-- The per-block question text (source lines 701–737): the depth-counted
`M7eMe` span contents pushed through the cleaning chain, or the
positional fallback `"Question N"` (`N = i + 1`) when the span is
missing or cleans to the empty string. -/
def extract_question_text (block : Str) (i : Nat) : Str :=
  let fallback := "Question ".data ++ natToStr (i + 1)
  match findTokMatch question_span_toks block 0 with
  | none => fallback
  | some (_, _, en) =>
    let content := block.drop en
    match spanScan (content.length + 1) content 1 0 with
    | none => fallback
    | some raw =>
      let t := pyStrip (removeTags raw)
      let t := collapseWs t
      let t := replaceNbsp t
      let t := pyStrip t
      let t := stripQuotesBS t
      let t := pyStrip t
      let t := stripLeadingNumber t
      if t.isEmpty then fallback else t

/-- The option span, source pattern
`<span[^>]*class="[^"]*aDTYNe[^"]*"[^>]*>([^<]+)</span>` with its one
capture group. -/
def option_span_toks : List Tok :=
  [.lit "<span".data, .gstar notGt, .lit "class=\"".data, .gstar notQuote,
   .lit "aDTYNe".data, .gstar notQuote, .lit "\"".data, .gstar notGt,
   .lit ">".data, .gcap notLt, .lit "</span>".data]

/-- Per-option cleaning (source lines 746–748). -/
def cleanOption (o : Str) : Str :=
  let c := collapseWs (pyStrip o)
  let c := stripQuotesBS c
  pyStrip c

/-- Sort key of the source's `options.sort(key=...)`: the first
character, or `'Z'` for an (impossible at this point) empty option. -/
def optKey (s : Str) : Char := s.headD 'Z'

/-- Stable insertion by `optKey`: the element goes after every element
with a strictly smaller key and before the first element with an equal
or larger key, so equal keys keep their original order — the behaviour
of Python's stable `list.sort(key=...)`. -/
def insertByKey (a : Str) : List Str → List Str
  | [] => [a]
  | b :: bs => if optKey b < optKey a then b :: insertByKey a bs else a :: b :: bs

/-- Stable sort by `optKey`, modelling `options.sort(key=lambda x: x[0]
if x and len(x) > 0 else 'Z')`. -/
def sortOptions : List Str → List Str
  | [] => []
  | a :: as => insertByKey a (sortOptions as)

/-- The per-block option list (source lines 739–754): all `aDTYNe`
captures, cleaned, kept when non-empty and not already present (exact
string dedup), then sorted by leading character. -/
def extractOptions (block : Str) : List Str :=
  let all := (findAllCaps option_span_toks block).map (fun cs => cs.headD [])
  let cleaned := all.foldl
    (fun acc o =>
      if cleanOption o ≠ [] ∧ cleanOption o ∉ acc then acc ++ [cleanOption o] else acc) []
  sortOptions cleaned

/-! ### Answer resolver (source lines 761–867)

The status patterns and heading patterns are searched with
`re.IGNORECASE`; since they are fixed ASCII literals with `\s*` gaps,
this is modelled by matching their lowercased token sequences against
the lowercased block (`Char.toLower` is one-to-one on positions, so
match offsets in the lowered block are offsets in the block). -/

/-- Outcome of the answered-correctly / answered-incorrectly detection. -/
inductive AnswerStatus where
  | correct
  | incorrect
deriving DecidableEq, Repr

/-- Status token sequence `<div class="fKfAyc">\s*WORD\s*</div>`
(lowercased, for the `IGNORECASE` search). -/
def status_toks (w : Str) : List Tok :=
  [.lit "<div class=\"fkfayc\">".data, .gstar pySpace, .lit w,
   .gstar pySpace, .lit "</div>".data]

/-- Source `answer_status_patterns`, in source order: Tama / Correct /
Mali / Incorrect. -/
def answer_status_patterns : List (List Tok × AnswerStatus) :=
  [(status_toks "tama".data, .correct),
   (status_toks "correct".data, .correct),
   (status_toks "mali".data, .incorrect),
   (status_toks "incorrect".data, .incorrect)]

/-- First status pattern (in source order) with a match, together with
the match start position (source lines 773–781). -/
def detectStatus (block : Str) : Option (AnswerStatus × Nat) :=
  let lb := lowerStr block
  answer_status_patterns.foldl
    (fun acc pat =>
      match acc with
      | some r => some r
      | none =>
        match findTokMatch pat.1 lb 0 with
        | some (pos, _, _) => some (pat.2, pos)
        | none => none) none

/-- Proximity selection for a correctly-answered question (source lines
783–803): inside the ±1000-character window around the status match,
pick the option whose first occurrence is closest to the status
position (strict improvement, so the earlier option wins ties). -/
def proximitySelect (block : Str) (options : List Str) (statusPos : Nat) : Option Str :=
  let searchStart := statusPos - 1000
  let searchEnd := min block.length (statusPos + 1000)
  let window := slice block searchStart searchEnd
  let statusInWindow := statusPos - searchStart
  (options.foldl
    (fun acc opt =>
      match findSub opt window with
      | none => acc
      | some p =>
        let d := absDiff p statusInWindow
        match acc with
        | none => some (opt, d)
        | some best => if d < best.2 then some (opt, d) else acc) none).map Prod.fst

/-- Correct-answer heading `<div class="fD9txe"[^>]*role="heading"[^>]*
aria-level="3"[^>]*>\s*WORD\s*</div>` (lowercased). -/
def heading_toks (w : Str) : List Tok :=
  [.lit "<div class=\"fd9txe\"".data, .gstar notGt, .lit "role=\"heading\"".data,
   .gstar notGt, .lit "aria-level=\"3\"".data, .gstar notGt, .lit ">".data,
   .gstar pySpace, .lit w, .gstar pySpace, .lit "</div>".data]

/-- Source `correct_answer_section_patterns`: Tamang sagot / Correct
answer. -/
def correct_answer_section_patterns : List (List Tok) :=
  [heading_toks "tamang sagot".data, heading_toks "correct answer".data]

/-- Selection for an incorrectly-answered question (source lines
805–823): after the first matching heading, the first option occurring
verbatim in the next 2000 characters; when a heading matches but no
option occurs there, the next heading pattern is tried. -/
def headingSelect (block : Str) (options : List Str) : Option Str :=
  let lb := lowerStr block
  correct_answer_section_patterns.foldl
    (fun acc ts =>
      match acc with
      | some r => some r
      | none =>
        match findTokMatch ts lb 0 with
        | none => none
        | some (_, _, en) =>
          let after := block.drop en
          options.findSome? (fun opt =>
            if hasSub opt (after.take 2000) then some opt else none)) none

/-- `aria-checked="true"[^>]*data-value="([^"]+)"` (case-sensitive). -/
def checked_toks : List Tok :=
  [.lit "aria-checked=\"true\"".data, .gstar notGt, .lit "data-value=\"".data,
   .gcap notQuote, .lit "\"".data]

/-- Fallback method 1 (source lines 826–835): the checked data-value,
matched against the options by substring containment in either
direction. -/
def checkedSelect (block : Str) (options : List Str) : Option Str :=
  match findTokMatch checked_toks block 0 with
  | none => none
  | some (_, cs, _) =>
    let v := cs.headD []
    options.findSome? (fun opt =>
      if hasSub v opt || hasSub opt v then some opt else none)

/-- The two `aria-label` indicator literals (lowercased). -/
def correct_label_variants : List Str :=
  ["aria-label=\"correct\"".data, "aria-label=\"tama\"".data]

/-- Fallback method 2 (source lines 837–863): for each indicator
occurrence, search the ±1000 window; an option found in the window is
taken when the distance between its first occurrence and the first
occurrence of the matched indicator text is below 500.  The matched
indicator text is the original-case slice of the block (the `finditer`
ran with `IGNORECASE`), which always occurs in the window. -/
def ariaSelect (block : Str) (options : List Str) : Option Str :=
  let lb := lowerStr block
  correct_label_variants.foldl
    (fun acc ind =>
      match acc with
      | some r => some r
      | none =>
        (findAllLit ind lb).findSome? (fun mstart =>
          let mend := mstart + ind.length
          let ws := mstart - 1000
          let we := min block.length (mend + 1000)
          let window := slice block ws we
          let group0 := slice block mstart mend
          options.findSome? (fun opt =>
            if hasSub opt window then
              match findSub opt window, findSub group0 window with
              | some op, some ip =>
                if absDiff op ip < 500 then some opt else none
              | _, _ => none
            else none))) none

/-- Steps 1–3 of the resolver: status detection, then proximity (status
correct) or heading search (status incorrect). -/
def statusMethod (block : Str) (options : List Str) : Option Str :=
  match detectStatus block with
  | some (.correct, pos) => proximitySelect block options pos
  | some (.incorrect, _) => headingSelect block options
  | none => none

/-- The full method chain before the final first-option fallback: each
later method runs only when `correct_answer` is still empty. -/
def answer_method_chain (block : Str) (options : List Str) : Option Str :=
  ((statusMethod block options).orElse (fun _ => checkedSelect block options)).orElse
    (fun _ => ariaSelect block options)

/-- The resolved `correct_answer` of a block: the method chain's result,
or the first option in sorted order (empty when there are no options,
as in the source where `correct_answer` stays `""`). -/
def resolveAnswer (block : Str) (options : List Str) : Str :=
  (answer_method_chain block options).getD (options.headD [])

/-! ### Difficulty classifier (source lines 72–623)

The seven keyword/pattern tables below are transcribed verbatim from
`analyze_question_difficulty`.  Keyword tables are matched by Python
substring containment; pattern tables hold, for each source regular
expression, its list of literal fragments separated by `.*` gaps. -/

def cognitive_indicators : List (List String × Nat) := [
  (["what is", "who is", "when did", "where is", "define", "identify", "list", "name", "recall", "state", "recognize", "the date of", "the title", "the author of", "the capital of", "the largest", "the smallest", "known as", "called", "refers to", "means", "stands for", "acronym for", "which of the following is", "what does", "who developed", "what theory", "what law", "according to", "based on", "the term", "this refers to", "is defined as"], 1),
  (["explain", "describe", "summarize", "interpret", "classify", "compare", "contrast", "illustrate", "translate", "the essence of", "the purpose of", "the meaning of", "demonstrates", "shows", "indicates", "example of", "characteristic of", "feature of", "belongs to", "what is meant by", "this means that", "the concept of", "understanding of", "the principle behind", "the idea that", "represents", "symbolizes"], 2),
  (["calculate", "solve", "demonstrate", "use", "apply", "implement", "execute", "operate", "practice", "find the value", "compute", "determine", "obtain", "perform", "simplify", "what score must", "if the student has", "the simple interest on", "the total amount after", "what teaching strategy", "what method should", "how would you", "what approach", "in this situation", "the teacher should", "what would be the best", "how can the teacher"], 3),
  (["analyze", "examine", "investigate", "categorize", "differentiate", "distinguish", "organize", "deconstruct", "what kind of thinking", "what type of", "which approach", "what strategy", "based on information", "according to", "in relation to", "what factor", "what element", "what component", "break down", "dissect", "what causes", "what leads to", "relationship between", "connection between"], 4),
  (["evaluate", "assess", "critique", "judge", "justify", "argue", "defend", "support", "validate", "rate", "most appropriate", "best", "most effective", "least", "cannot be considered", "which of the following can be", "what went wrong", "is the teacher right", "most suitable", "least appropriate", "not recommended", "should not", "priority should be", "first consideration", "primary concern", "main focus"], 5),
  (["create", "design", "develop", "construct", "formulate", "generate", "produce", "synthesize", "compose", "make research", "developing a system", "design the instructional", "plan ahead for", "establish", "build", "organize", "structure", "arrange", "set up", "plan a lesson", "design a curriculum", "develop a program", "create a strategy"], 6)]

def domain_complexity : List (List String × Nat) := [
  (["capital", "flag", "anthem", "hero", "date", "year", "name of", "title of", "archipelago", "blood compact", "ilustrados", "aetas", "balagtasan", "commensalism", "food web", "genus", "esters", "cube", "exponential form", "cell", "tissue", "organ", "system", "blood", "heart", "brain", "lung", "bone", "muscle", "skin", "eye", "ear", "nose", "mouth", "tooth", "teeth", "ribs", "sternum", "vertebral column", "cerebellum", "aorta", "ventricle"], 1),
  (["calculate", "compute", "solve for", "find the value", "equation", "formula", "percentage", "simplify", "greatest common", "least common", "average score", "simple interest", "consecutive even integers", "discount", "final average", "total amount"], 2),
  (["principle", "law", "theory", "hypothesis", "experiment", "observation", "phenomenon", "citric acid cycle", "electron configuration", "carbon family", "organic compounds", "feeding connections", "life forms", "biochemical pathway", "mitosis", "meiosis", "dna", "rna", "protein", "enzyme", "hormone", "chromosome", "gene", "allele", "phenotype", "genotype", "mutation", "natural selection", "adaptation", "species", "taxonomy", "classification", "kingdom", "phylum", "photosynthesis", "respiration", "evolution", "genetics", "ecosystem", "biodiversity", "glucagon", "adrenalin", "insulin", "thyroxine", "leukocytes", "lymphocytes", "erythrocytes", "cellulose", "cotyledon", "hilum", "meristematic", "cambium", "epidermis", "tundra", "rain forest", "biome", "habitat"], 3),
  (["pedagogy", "curriculum", "assessment", "learning theory", "teaching method", "educational philosophy", "outcome-based education", "understanding by design", "problem-based", "cooperative learning", "affective domain", "cognitive domain", "psychomotor domain", "bloom\x27s taxonomy", "convergent thinking", "divergent thinking", "reflective teaching", "action research", "curriculum development", "curriculum model", "curriculum approach", "delivery modes", "learning objectives", "competency", "learning materials", "instructional design", "educational approach", "teaching approach", "learning approach", "methodology", "classroom management", "discipline", "motivation", "reinforcement", "guidance process", "test reliability", "erikson stages", "maslow hierarchy", "course objective", "learning climate", "drta", "cultural heritage", "test norms", "professionalization", "correlation", "student motivation", "higher-order thinking", "vygotsky scaffolding", "real-world connections", "ict concerns", "pygmalion effect", "ripple effect"], 5),
  (["multicultural perspective", "inclusive education", "alternative learning system", "intellectual disability", "direct instruction", "task analysis", "systematic feedback", "progressivism", "reconstructionism", "existentialism", "behaviorist learning theory", "media literacy", "digital literacy", "information literacy", "cyber literacy", "philosophical foundations", "educational philosophy", "constructivist", "behaviorist", "cognitive theory", "metacognitive", "scaffolding", "differentiation", "taxonomy", "reader-response theory", "modern taxonomy", "ancient taxonomy", "inclusivity", "enhanced basic education act", "madrasa curriculum", "chronological ages", "perennialism", "essentialism", "idealism", "pragmatism", "phenomenology", "phenomenologists", "idealists", "pragmatists", "plato philosophy", "freud psychoanalytic theory", "chomsky language learning", "bandura social learning", "thorndike law of effect", "bruner theory", "trust vs maturity", "autonomy vs self-doubt", "initiative vs guilt", "behavior modification", "pleasant consequences"], 6),
  (["research", "methodology", "statistical", "qualitative", "quantitative", "meta-analysis", "capstone", "developing a system", "negatively skewed", "score distribution", "philosophical foundations", "curriculum process", "delivery modes", "formulation", "effectiveness", "evaluation", "determining objectives", "model begins", "extent of poverty", "squatter area", "clusters of major", "sub-concepts", "interaction"], 7)]

def structure_indicators : List (List (List String) × Nat) := [
  ([["what is the"], ["who is"], ["when did"], ["where is"], ["which of the following is"], ["the name of"], ["the largest"], ["the smallest"], ["the first"], ["the last"], ["how many"], ["what type of"], ["what kind of"], ["which one"], ["the capital of"], ["the author of"], ["the date of"], ["the title of"]], 1),
  ([["both", "and"], ["either", "or"], ["not only", "but also"], ["as well as"], ["in addition to"], ["all of the following"], ["none of the following"], ["except for"], ["with the exception of"], ["along with"], ["together with"]], 2),
  ([["if", "then"], ["assuming that"], ["given that"], ["provided that"], ["in case of"], ["when", "will"], ["unless", "otherwise"], ["suppose that"], ["what would happen if"], ["under what conditions"]], 3),
  ([["compare", "with"], ["contrast", "and"], ["difference between"], ["similarity between"], ["versus"], ["most appropriate"], ["best describes"], ["most suitable"], ["least likely"], ["most effective"], ["better than"], ["worse than"], ["unlike"], ["whereas"], ["on the other hand"], ["in contrast to"]], 3),
  ([["because of"], ["due to"], ["as a result of"], ["leads to"], ["causes"], ["effects of"], ["results in"], ["consequently"], ["therefore"], ["thus"], ["hence"], ["what factor"], ["what causes"], ["why does"], ["the reason for"]], 4),
  ([["in the classroom"], ["teaching strategy"], ["learning activity"], ["instructional approach"], ["assessment method"], ["what should", "do"], ["how would you"], ["the teacher should"], ["students should"], ["in this situation"], ["given this scenario"], ["what teaching strategy"], ["what is meant by"], ["what approach"]], 4)]

def hard_question_patterns : List (List (List String) × Nat) := [
  ([["what teaching strategy", "employ"], ["i. ", "ii. ", "iii. ", "iv."], ["socio-drama", "dilemma", "jury trial", "parliamentary"], ["effectively analyze and evaluate evidence"], ["critical thinking and problem solving"], ["competency", "effectively analyze", "evaluate", "evidence", "arguments", "claims", "beliefs"]], 12),
  ([["ability to access", "analyze", "evaluate", "create", "act"], ["using all forms of communication"], ["literacy", "21st century", "access", "analyze", "evaluate", "create", "act"], ["analyze", "evaluate", "evidence", "arguments", "claims", "beliefs"], ["media literacy", "information literacy", "digital literacy", "cyber literacy"], ["literacy", "21st century", "refers to the ability"]], 12),
  ([["i, ii, iii and iv"], ["ii, iii and iv only"], ["i and ii only"], ["i, ii and iv only"], ["which of the following", "except"], ["all", "except one"], ["only", "i. ", "ii. ", "iii. ", "iv."]], 10),
  ([["philosophical foundations", "curriculum"], ["progressivists", "john dewey"], ["behaviorist learning theory"], ["bronfenbrenner", "ecological theory"], ["vygotsky", "zone of proximal development"], ["curriculum development model", "begins", "determining", "objectives"], ["reader-response theory"], ["modern taxonomy", "carolus linnaeus", "ancient taxonomy"], ["enhanced basic education act", "inclusivity"], ["madrasa curriculum", "inclusive education"]], 11),
  ([["curriculum process", "delivery modes", "applied"], ["extent of poverty", "squatter area"], ["approach", "topics", "clusters", "major", "sub-concepts", "interaction"], ["additional learning experiences", "learners", "gifts", "talents", "chronological ages"], ["competency", "grade", "math", "interprets data", "bar graphs"], ["diversity of learners", "competency", "teacher display"], ["formulation", "basic education curriculum", "ra 10533", "inclusivity"], ["test item analysis", "difficulty index", "discrimination index"], ["guidance process", "counseling", "psychological testing"], ["test reliability", "validity", "correlation coefficient"], ["course objective", "assessment", "learning outcomes"], ["positive learning climate", "classroom management"], ["cultural heritage", "multicultural perspective"]], 11),
  ([["cellular respiration", "mitochondria", "atp production"], ["photosynthesis", "chloroplast", "light reactions", "calvin cycle"], ["dna replication", "transcription", "translation", "protein synthesis"], ["mitosis", "meiosis", "chromosome", "genetic variation"], ["ecosystem", "food chain", "energy flow", "nutrient cycling"], ["homeostasis", "feedback mechanisms", "regulation"], ["evolution", "natural selection", "adaptation", "speciation"], ["genetics", "alleles", "genotype", "phenotype", "inheritance"], ["anatomy", "physiology", "organ systems", "structure", "function"], ["taxonomy", "classification", "binomial nomenclature", "phylogeny"]], 12),
  ([["existentialism", "perennialism", "progressivism", "essentialism"], ["phenomenologists", "idealists", "pragmatists", "philosophy"], ["plato", "aristotle", "socrates", "philosophical foundations"], ["erikson", "stages", "trust", "autonomy", "initiative", "identity"], ["freud", "psychoanalytic", "unconscious", "defense mechanisms"], ["piaget", "cognitive development", "stages", "schema", "assimilation"], ["vygotsky", "zone of proximal development", "scaffolding", "social learning"], ["bandura", "social learning theory", "modeling", "observational learning"], ["thorndike", "law of effect", "behaviorism", "conditioning"], ["bruner", "discovery learning", "spiral curriculum", "cognitive theory"]], 13),
  ([["refers to the ability to access, analyze, evaluate, create and act"], ["intend my students to attain competency"], ["teaching strategy will i need to employ"], ["21st century", "ability", "access", "analyze", "evaluate", "create", "act"], ["what competency must the teacher display"], ["which learning materials are most appropriate", "master the competency"], ["what does inclusivity mean"], ["curriculum development model", "effectiveness"], ["pygmalion effect", "teacher expectations", "student performance"], ["ripple effect", "classroom discipline", "behavior management"], ["maslow", "hierarchy", "needs", "motivation", "self-actualization"], ["bloom", "taxonomy", "cognitive", "affective", "psychomotor", "domains"], ["gardner", "multiple intelligence", "learning styles", "individual differences"], ["structure", "function", "relationship", "biological systems"], ["compare", "contrast", "biological processes", "mechanisms"], ["analyze", "interpret", "experimental data", "scientific method"], ["predict", "outcomes", "based on", "biological principles"]], 15)]

def technical_terms : List String := ["methodology", "paradigm", "epistemology", "ontology", "phenomenology", "pedagogy", "andragogy", "heutagogy", "constructivism", "behaviorism", "cognitivism", "metacognition", "scaffolding", "differentiation", "taxonomy", "synthesis", "analysis", "evaluation", "application", "outcome-based", "competency-based", "contextualized", "deductive", "inductive", "synchronous", "asynchronous", "blended learning", "modular approach", "progressivism", "reconstructionism", "existentialism", "idealism", "alternative learning system", "inclusive education", "multicultural", "classroom management", "instructional design", "curriculum development", "assessment method", "learning objectives", "competency-based", "erikson stages", "maslow hierarchy", "vygotsky scaffolding", "piaget theory", "freud psychoanalytic", "bandura social learning", "thorndike law", "bruner discovery learning", "bloom taxonomy", "gardner multiple intelligence", "perennialism", "essentialism", "pragmatism", "phenomenologists", "guidance process", "test reliability", "correlation coefficient", "professionalization", "pygmalion effect", "ripple effect", "mitochondria", "chloroplast", "ribosome", "endoplasmic reticulum", "golgi apparatus", "lysosome", "nucleus", "cytoplasm", "membrane", "photosynthesis", "cellular respiration", "mitosis", "meiosis", "dna replication", "transcription", "translation", "enzyme", "protein synthesis", "amino acid", "nucleotide", "chromosome", "allele", "genotype", "phenotype", "heredity", "mutation", "ecosystem", "biodiversity", "symbiosis", "parasitism", "mutualism", "commensalism", "predation", "competition", "succession", "homeostasis", "metabolism", "osmosis", "diffusion", "active transport", "cerebellum", "vertebral column", "sternum", "glucagon", "insulin", "thyroxine", "adrenalin", "leukocytes", "erythrocytes", "lymphocytes", "cellulose", "cotyledon", "hilum", "meristematic", "cambium", "epidermis", "tundra", "biome", "taxonomy", "classification", "binomial nomenclature", "pangatnig", "paglalapi", "pagbubuo", "pagkaltas", "dugtungan", "patotoo", "pagtanggi", "talumpati", "bugtungan"]

def philippine_context : List String := ["republic act", "ra ", "deped", "ched", "let", "licensure examination", "k-12", "mother tongue", "filipino", "tagalog", "cebuano", "ilokano", "philippine independence", "diosdado macapagal", "emilio aguinaldo", "apolinario mabini", "legaspi", "sikatuna", "blood compact", "galleon trade", "ilustrados", "antonio de morga", "sucesos de las islas filipinas", "spanish regime", "luzon", "pampanga", "tarlac", "zambales", "aetas", "igorots", "mangyans", "archipelago", "bohol", "pasig", "magallanes ave"]

def educational_law : List String := ["ra 10533", "ra 7836", "ra 9155", "enhanced basic education act", "magna carta", "code of ethics", "professional standards", "code of ethics for professional teachers", "philippine education plan", "curriculum development", "educational landscape", "teaching-learning process", "school governance", "borderless global society", "multicultural perspective"]

def complex_structures : List (List String) := [["not only", "but also"], ["although", "however"], ["despite", "nevertheless"], ["whereas", "while"], ["in contrast to", "however"], ["on the one hand", "on the other hand"]]

/-- A fragment pattern `a.*b.*c` matches a newline-free line when the
fragments occur in order (searching each fragment left-to-right after
the previous one is complete for a Boolean match). -/
def seqFragsLine : List Str → Str → Bool
  | [], _ => true
  | f :: rest, line =>
    match findSub f line with
    | none => false
    | some p => seqFragsLine rest (line.drop (p + f.length))

/-- `re.search` for a fragment pattern: since `.` does not match `\n`
and the fragments are newline-free, some single line must contain the
fragments in order. -/
def reSearchFrags (frags : List Str) (s : Str) : Bool :=
  (splitLines s).any (seqFragsLine frags)

/-- Maximum score over a keyword table: for each row, if any keyword is
contained in the text the row's score competes (source's nested `for` /
`max` loops). -/
def maxKeywordScore (tbl : List (List String × Nat)) (t : Str) : Nat :=
  tbl.foldl
    (fun acc row =>
      if row.1.any (fun k => hasSub k.data t) then max acc row.2 else acc) 0

/-- Maximum score over a pattern table (`re.search` per pattern; a row
scores when any of its patterns matches). -/
def maxPatternScore (tbl : List (List (List String) × Nat)) (t : Str) : Nat :=
  tbl.foldl
    (fun acc row =>
      if row.1.any (fun p => reSearchFrags (p.map (fun f => f.data)) t) then max acc row.2
      else acc) 0

/-- Dimension 4, linguistic complexity (source lines 339–402):
word-count bonus on the original question text, technical-term count in
the lowered text capped at 3, and +1 per matching complex-sentence
connector pattern. -/
def linguistic_score (question_text ql : Str) : Nat :=
  let wc := countWords question_text
  let base := if wc > 30 then 2 else if wc > 20 then 1 else 0
  let tech := technical_terms.countP (fun term => hasSub term.data ql)
  base + min tech 3 +
    complex_structures.countP (fun p => reSearchFrags (p.map (fun f => f.data)) ql)

/-- Source: `re.sub(r'^[A-D]\. ', '', opt)` — strip an upper-case
letter, a dot and a single space. -/
def stripUpperMarker (opt : Str) : Str :=
  match opt with
  | c :: '.' :: ' ' :: rest => if 'A' ≤ c ∧ c ≤ 'D' then rest else opt
  | _ => opt

/-- Head test for `\d+\.\d+`: digit, dot, digit at this position. -/
def digitDotDigitAt : Str → Bool
  | a :: b :: c :: _ => a.isDigit && b = '.' && c.isDigit
  | _ => false

/-- `re.search(r'\d+\.\d+', s)`: a dot with a digit on both sides. -/
def hasDigitDotDigit : Str → Bool
  | [] => false
  | a :: rest => digitDotDigitAt (a :: rest) || hasDigitDotDigit rest

/-- Head test for `\d+%`: digit then percent sign. -/
def digitPercentAt : Str → Bool
  | a :: b :: _ => a.isDigit && b = '%'
  | _ => false

/-- `re.search(r'\d+%', s)`: a percent sign preceded by a digit. -/
def hasDigitPercent : Str → Bool
  | [] => false
  | a :: rest => digitPercentAt (a :: rest) || hasDigitPercent rest

/-- Head test for `\d+/\d+`: digit, slash, digit. -/
def digitSlashDigitAt : Str → Bool
  | a :: b :: c :: _ => a.isDigit && b = '/' && c.isDigit
  | _ => false

/-- `re.search(r'\d+/\d+', s)`: a slash with a digit on both sides. -/
def hasDigitSlashDigit : Str → Bool
  | [] => false
  | a :: rest => digitSlashDigitAt (a :: rest) || hasDigitSlashDigit rest

/-- Head test for `[a-z]\^\d+`: lower-case letter, caret, digit. -/
def caretPowAt : Str → Bool
  | a :: b :: c :: _ => ('a' ≤ a && a ≤ 'z') && b = '^' && c.isDigit
  | _ => false

/-- `re.search(r'[a-z]\^\d+', s)`: a caret between a lower-case letter
and a digit. -/
def hasCaretPow : Str → Bool
  | [] => false
  | a :: rest => caretPowAt (a :: rest) || hasCaretPow rest

/-- Head test for `√\d+`: radical sign then digit. -/
def rootDigitAt : Str → Bool
  | a :: b :: _ => a.toNat = 0x221A && b.isDigit
  | _ => false

/-- `re.search(r'√\d+', s)`: a radical sign followed by a digit. -/
def hasRootDigit : Str → Bool
  | [] => false
  | a :: rest => rootDigitAt (a :: rest) || hasRootDigit rest

/-- Source loop `for pattern in numerical_patterns: if re.search(...):
score += 1; break` — the inner `break` makes this "+1 per option that
matches at least one pattern". -/
def matchesNumericPattern (opt : Str) : Bool :=
  hasDigitDotDigit opt || hasDigitPercent opt || hasDigitSlashDigit opt ||
    hasCaretPow opt || hasRootDigit opt

/-- Average option word length thresholds (source lines 411–416).
`avg > 10` over float division equals `total > 10 * n` over the exact
rationals, and the two never disagree under IEEE rounding because a tie
would need `total = 10 * n + ε` with `0 < ε < n · ulp`, impossible for
integer word counts at these magnitudes. -/
def option_length_score (option_texts : List Str) : Nat :=
  let n := option_texts.length
  let total := (option_texts.map countWords).sum
  if total > 10 * n then 2 else if total > 5 * n then 1 else 0

/-- Technical-term hits over all (option, term) pairs (source lines
419–420). -/
def option_technical_count (option_texts : List Str) : Nat :=
  option_texts.foldl
    (fun acc opt =>
      acc + technical_terms.countP (fun term => hasSub (lowerStr term.data) (lowerStr opt))) 0

/-- Dimension 5, answer-choice complexity (source lines 404–431): length
thresholds, technical terms capped at 2, then the numeric-pattern loop
which (because its `break` only leaves the inner pattern loop) adds one
point for every option matching some numeric pattern. -/
def answer_complexity_score (options : List Str) : Nat :=
  if options.isEmpty then 0
  else
    let option_texts := options.map stripUpperMarker
    let s := option_length_score option_texts + min (option_technical_count option_texts) 2
    option_texts.foldl (fun acc opt => if matchesNumericPattern opt then acc + 1 else acc) s

/-- Dimension 6, contextual knowledge (source lines 433–467): one point
per Philippine-context hit, two per educational-law hit, capped at 4. -/
def context_requirement_score (ql : Str) : Nat :=
  let p := philippine_context.countP (fun c => hasSub c.data ql)
  let e := educational_law.countP (fun c => hasSub c.data ql)
  min (p + 2 * e) 4

/-- Decorative quote characters of `normalize_question_text`'s
character class (curly double/single quotes and the backtick). -/
def decorativeQuote (c : Char) : Bool :=
  c.toNat = 0x201C || c.toNat = 0x201D || c.toNat = 0x2018 ||
    c.toNat = 0x2019 || c.toNat = 96

/-- Source: `re.sub(r'_\x7b2,\x7d', '_____', s)` — replace each run of
two or more underscores by exactly five. -/
def collapseUnderscoresF : Nat → Str → Str
  | 0, s => s
  | _, [] => []
  | fuel + 1, c :: rest =>
    if c = '_' then
      let run := rest.takeWhile (fun d => d = '_')
      if run.isEmpty then c :: collapseUnderscoresF fuel rest
      else "_____".data ++ collapseUnderscoresF fuel (rest.drop run.length)
    else c :: collapseUnderscoresF fuel rest

/-- Underscore-run collapsing with sufficient fuel. -/
def collapseUnderscores (s : Str) : Str := collapseUnderscoresF (s.length + 1) s

/-- Source `normalize_question_text` (lines 920–926): lowercase and
strip, collapse underscore runs, collapse whitespace, remove decorative
quotes. -/
def normalize_question_text (text : Str) : Str :=
  let n := lowerStr (pyStrip text)
  let n := collapseUnderscores n
  let n := collapseWs n
  n.filter (fun c => !decorativeQuote c)

/-- The seven-dimension difficulty classifier, source
`analyze_question_difficulty`.  The `correct_answer` parameter is kept
because the source signature has it; the source body never reads it.
The final float comparison `(score / 46) * 100 >= t` is modelled by the
exact integer comparison `100 * score ≥ t * 46`; the two agree because
the quotient can never round across the thresholds (a disagreement
would need `score * 100 / 46` within one part in 2⁵² of 45 or 25, and
the nearest integer scores give `2070/46` and `1150/46` exactly). -/
def analyze_question_difficulty (question_text : Str) (options : List Str)
    (correct_answer : Str) : Str :=
  let _ := correct_answer
  let ql := pyStrip (lowerStr question_text)
  let cognitive := maxKeywordScore cognitive_indicators ql
  let structural := maxPatternScore structure_indicators ql
  let domain := maxKeywordScore domain_complexity ql
  let linguistic := linguistic_score question_text ql
  let answerC := answer_complexity_score options
  let context := context_requirement_score ql
  let hard := maxPatternScore hard_question_patterns ql
  let score := cognitive + structural + domain + linguistic + answerC + context + hard
  if 100 * score ≥ 45 * 46 then "hard".data
  else if 100 * score ≥ 25 * 46 then "medium".data
  else "easy".data

/-! ### Record assembly, dedup pass, and the pipeline -/

/-- One canonical quiz record (source `quiz_item` dict, lines 886–894). -/
structure QuizItem where
  id : Str
  deck : Str
  question : Str
  correctAnswer : Str
  wrongAnswers : List Str
  difficulty : Str
  createdAt : Str
deriving DecidableEq, Repr

/-- Character class `[A-Da-d]` of the option-marker substitution. -/
def isOptionLetter (c : Char) : Bool :=
  ('A' ≤ c && c ≤ 'D') || ('a' ≤ c && c ≤ 'd')

/-- Character class `[\.)\]]` of the option-marker substitution. -/
def isMarkerPunct (c : Char) : Bool := c = '.' || c = ')' || c = ']'

/-- Second alternative `^[A-Da-d][\.)\]]\s*` of the option-marker
substitution. -/
def stripMarkerAlt : Str → Str
  | c :: p :: rest =>
    if isOptionLetter c && isMarkerPunct p then rest.dropWhile pySpace
    else c :: p :: rest
  | s => s

/-- Source: `re.sub(r'^\([A-Da-d]\)\s*|^[A-Da-d][\.)\]]\s*', '', s)` —
remove one leading option marker such as `"A. "`, `"(b) "`, `"c] "`;
the alternatives are tried in order at the start of the string. -/
def stripOptionMarker : Str → Str
  | '(' :: c :: ')' :: rest =>
    if isOptionLetter c then rest.dropWhile pySpace
    else stripMarkerAlt ('(' :: c :: ')' :: rest)
  | s => stripMarkerAlt s

/-- Cleaning of `correct_answer` into `clean_correct` (source lines 878
and 882–883): option-marker strip guarded on non-emptiness, then
strip + edge-quote removal, again guarded. -/
def cleanAnswer (s : Str) : Str :=
  let c := if s.isEmpty then [] else stripOptionMarker s
  if c.isEmpty then c else stripQuotesBS (pyStrip c)

/-- Cleaning of one wrong answer into its `clean_wrong` entry (source
lines 879 and 884): the same two substitutions, unguarded. -/
def cleanWrongAnswer (s : Str) : Str := stripQuotesBS (pyStrip (stripOptionMarker s))

/-- One iteration of the per-block loop (source lines 697–896): question
text, options, resolver, difficulty, marker-stripped answers.  Returns
`none` when the option list is empty (the source `continue`s, skipping
the block).  `idBase` stands for `int(datetime.now().timestamp() * 1000)`
and `currentTime` for the ISO timestamp, both taken once per run.  The
third argument the source passes to the classifier is a leftover local
of the previous iteration (`clean_correct if 'clean_correct' in
locals() else correct_answer`); the classifier never reads it, so the
block's own `correct_answer` is passed here. -/
def processBlock (deckName : Str) (idBase : Nat) (currentTime : Str) (i : Nat)
    (block : Str) : Option QuizItem :=
  let question_text := extract_question_text block i
  let options := extractOptions block
  if options.isEmpty then none
  else
    let correct_answer := resolveAnswer block options
    let wrong_answers := options.filter (fun o => o ≠ correct_answer)
    let difficulty := analyze_question_difficulty question_text options correct_answer
    some
      { id := natToStr (idBase + i)
        deck := deckName
        question := question_text
        correctAnswer := cleanAnswer correct_answer
        wrongAnswers := wrong_answers.map cleanWrongAnswer
        difficulty := difficulty
        createdAt := currentTime }

/-- The dedup loop of the Dataset Assembler (source lines 916–935):
keep a record when its normalized question text has not been seen. -/
def dedupLoop : List QuizItem → List Str → List QuizItem
  | [], _ => []
  | q :: rest, seen =>
    if normalize_question_text q.question ∈ seen then dedupLoop rest seen
    else q :: dedupLoop rest (normalize_question_text q.question :: seen)

/-- The dedup pass over the whole extracted set. -/
def dedupQuizzes (l : List QuizItem) : List QuizItem := dedupLoop l []

/-- Difficulty bucket counts of the final set (source lines 943–948). -/
def difficulty_stats (l : List QuizItem) : Nat × Nat × Nat :=
  (l.countP (fun q => q.difficulty = "easy".data),
   l.countP (fun q => q.difficulty = "medium".data),
   l.countP (fun q => q.difficulty = "hard".data))

/-- Outcome of one extraction call: the returned quiz data (`none` on
the error paths, where the source returns `None, error_msg`), the
returned message, and whether the output file was written (the source
only opens the output file in the final save step). -/
structure ExtractOutcome where
  data : Option (List QuizItem)
  message : Str
  fileWritten : Bool
deriving DecidableEq, Repr

/-- Source error message for a missing HTML part (line 667). -/
def noHtmlMsg (mhtmlName : Str) : Str :=
  "Could not extract HTML from ".data ++ mhtmlName

/-- Source error message for a decode exception (line 662). -/
def decodeErrMsg (e : Str) : Str := "Error decoding HTML content: ".data ++ e

/-- Source failure message when no question blocks are found (line 683). -/
def noQuestionsMsg : Str :=
  "No questions found in the file. Please check if this is a valid Google Forms MHTML file.".data

/-- Source success message (line 968). -/
def successMsg (outputFile : Str) (finalCount easy medium hard : Nat) : Str :=
  "Extraction complete! Created ".data ++ outputFile ++ " with ".data ++
    natToStr finalCount ++ " questions (Easy: ".data ++ natToStr easy ++
    ", Medium: ".data ++ natToStr medium ++ ", Hard: ".data ++ natToStr hard ++ ")".data

/-- The per-question progress message `f"Processing question
\x7bi+1\x7d/\x7bn\x7d..."`. -/
def processingQuestionMsg (k n : Nat) : Str :=
  "Processing question ".data ++ natToStr k ++ "/".data ++ natToStr n ++ "...".data

/-- The `f"Processing \x7bn\x7d questions..."` progress message. -/
def processingAllMsg (n : Nat) : Str :=
  "Processing ".data ++ natToStr n ++ " questions...".data

/-- The per-block loop with its progress callbacks (source lines
697–896): each iteration first reports progress, then processes its
block; a callback exception propagates, as in the source where the
call is not guarded by any `try`. -/
def processAllBlocks (cb : Str → Except Str Unit) (deckName : Str) (idBase : Nat)
    (currentTime : Str) (n : Nat) : List Str → Nat → Except Str (List QuizItem)
  | [], _ => pure []
  | block :: rest, i => do
    cb (processingQuestionMsg (i + 1) n)
    let tail ← processAllBlocks cb deckName idBase currentTime n rest (i + 1)
    match processBlock deckName idBase currentTime i block with
    | some item => pure (item :: tail)
    | none => pure tail

/-- The extraction pipeline, source `extract_quiz_from_mhtml` (lines
629–984).  `decodeFn` models `quopri.decodestring(...).decode('utf-8',
errors='ignore')` with `error` for a raised exception; `cb` models the
optional progress callback, whose exceptions propagate out of the
function (no source `try` guards the calls); `content` is the text the
source reads from `mhtml_file` (read errors are outside this model).
The final save is modelled as succeeding; `fileWritten` records whether
execution reached it.  The pipeline is split into the stages after the
HTML part is located (`extract_html_located`) and after the decode
succeeds (`extract_decoded`); `extract_quiz_from_mhtml` is the entry
point of the whole source function. -/
def extract_decoded (cb : Str → Except Str Unit) (deckName outputFile : Str)
    (idBase : Nat) (currentTime : Str) (decoded_html : Str) :
    Except Str ExtractOutcome := do
  cb "Finding question blocks...".data
  let question_blocks := findBlocks decoded_html
  if question_blocks.isEmpty then
    pure ⟨none, noQuestionsMsg, false⟩
  else do
    cb (processingAllMsg question_blocks.length)
    let items ← processAllBlocks cb deckName idBase currentTime
      question_blocks.length question_blocks 0
    cb "Removing duplicates...".data
    let unique := dedupQuizzes items
    cb "Saving JSON file...".data
    let stats := difficulty_stats unique
    cb "Extraction completed successfully!".data
    pure ⟨some unique,
      successMsg outputFile unique.length stats.1 stats.2.1 stats.2.2, true⟩

/-- The decode step (source lines 658–665) followed by the rest of the
pipeline: a decode exception yields the decode-error outcome. -/
def extract_html_located (decodeFn : Str → Except Str Str)
    (cb : Str → Except Str Unit) (deckName outputFile : Str) (idBase : Nat)
    (currentTime : Str) (html_content : Str) : Except Str ExtractOutcome :=
  match decodeFn html_content with
  | .error e => pure ⟨none, decodeErrMsg e, false⟩
  | .ok decoded_html =>
    extract_decoded cb deckName outputFile idBase currentTime decoded_html

/-- The extraction pipeline entry point. -/
def extract_quiz_from_mhtml (decodeFn : Str → Except Str Str)
    (cb : Str → Except Str Unit) (mhtmlName deckName outputFile : Str)
    (idBase : Nat) (currentTime : Str) (content : Str) :
    Except Str ExtractOutcome := do
  cb "Reading MHTML file...".data
  cb "Extracting HTML content...".data
  match find_html_part content with
  | none => pure ⟨none, noHtmlMsg mhtmlName, false⟩
  | some html_content =>
    extract_html_located decodeFn cb deckName outputFile idBase currentTime html_content

/-- A progress callback that never raises (also the model of passing
`progress_callback=None`, since the source guards every call with
`if progress_callback:`). -/
def pure_callback : Str → Except Str Unit := fun _ => Except.ok ()

/-- Source `merge_quiz_files` (lines 1024–1097) at the data level: the
list entries are the `load_quiz_file` results per input path (`none`
for a missing file or a failed load, exactly the cases where the source
`continue`s or gets `None`); a loaded empty list is skipped by the
truthiness test `if quizzes:`.  Returns the saved merged list, or the
source's error message when nothing was collected. -/
def merge_quiz_files (loads : List (Option (List QuizItem))) :
    Except Str (List QuizItem) :=
  let merged := loads.foldl
    (fun acc l =>
      match l with
      | none => acc
      | some quizzes => if quizzes.isEmpty then acc else acc ++ quizzes) []
  if merged.isEmpty then
    Except.error "No valid quiz data found in any of the files.".data
  else Except.ok merged

/-! ### Spec-side comparator for the answer-choice numeric bonus -/

/-- Modelled from the spec's words for comparison with
`answer_complexity_score`: "numeric/formula pattern detection in options
(+1 if any option matches)" — a single point when at least one option
matches, instead of one point per matching option. -/
def answer_complexity_score_claim (options : List Str) : Nat :=
  if options.isEmpty then 0
  else
    let option_texts := options.map stripUpperMarker
    option_length_score option_texts + min (option_technical_count option_texts) 2 +
      (if option_texts.any matchesNumericPattern then 1 else 0)

/-! ### Concrete inputs for witnesses and counterexamples -/

/-- A question block whose two options collide after marker stripping:
`"A. Paris"` and `"B. Paris"` are distinct extracted options (exact
string dedup keeps both), but both strip to `"Paris"`. -/
def blockTwoParis : Str :=
  ("<div class=\"Qr7Oae\" role=\"listitem\"><span class=\"M7eMe\">zzz</span>" ++
   "<span class=\"aDTYNe\">A. Paris</span><span class=\"aDTYNe\">B. Paris</span></div>").data

/-- A plain question block with one option and no status indicators. -/
def blockPlain : Str :=
  ("<div class=\"Qr7Oae\" role=\"listitem\"><span class=\"M7eMe\">zzz</span>" ++
   "<span class=\"aDTYNe\">A. qq</span><span class=\"aDTYNe\">B. rr</span></div>").data

/-- The four options of the spec's proximity scenario. -/
def parisOptions : List Str :=
  ["A. Paris".data, "B. London".data, "C. Berlin".data, "D. Madrid".data]

/-- A question block realizing the spec's proximity scenario: a
`Correct` status indicator rendered immediately after the `B. London`
option span. -/
def blockLondon : Str :=
  ("<div class=\"Qr7Oae\" role=\"listitem\"><span class=\"M7eMe\">zzz</span>" ++
   "<span class=\"aDTYNe\">A. Paris</span>" ++
   "<span class=\"aDTYNe\">B. London</span>" ++
   "<div class=\"fKfAyc\">Correct</div>" ++
   "<span class=\"aDTYNe\">C. Berlin</span>" ++
   "<span class=\"aDTYNe\">D. Madrid</span></div>").data

/-- A document whose HTML part holds one plain question block. -/
def docOneQuestion : Str :=
  ("Content-Type: text/html\n\n" ++
   "<div class=\"Qr7Oae\" role=\"listitem\"><span class=\"M7eMe\">zzz</span>" ++
   "<span class=\"aDTYNe\">A. qq</span></div>" ++
   "\n--boundary").data

/-- A document with an HTML part that contains no question block. -/
def docNoQuestions : Str :=
  "Content-Type: text/html\n\nhello world\n--boundary".data

/-- The record the per-block extraction emits for `blockTwoParis` with
deck `"deck"`, id base 0, created-at `"t0"`, index 0. -/
def sampleItemTwoParis : QuizItem :=
  { id := "0".data, deck := "deck".data, question := "zzz".data,
    correctAnswer := "Paris".data, wrongAnswers := ["Paris".data],
    difficulty := "easy".data, createdAt := "t0".data }

/-- A concrete quiz record for the merge witnesses. -/
def sampleItem : QuizItem :=
  { id := "1".data, deck := "d".data, question := "q".data,
    correctAnswer := "a".data, wrongAnswers := ["b".data],
    difficulty := "easy".data, createdAt := "t".data }

/-- Decidable equality on `Except`, for stating concrete pipeline
outcomes. -/
instance {ε α : Type} [DecidableEq ε] [DecidableEq α] : DecidableEq (Except ε α) :=
  fun a b =>
    match a, b with
    | .ok x, .ok y => if h : x = y then isTrue (by rw [h]) else isFalse (by simp [h])
    | .error x, .error y => if h : x = y then isTrue (by rw [h]) else isFalse (by simp [h])
    | .ok _, .error _ => isFalse (by simp)
    | .error _, .ok _ => isFalse (by simp)

end QuizToolkit

namespace QuizToolkit

set_option maxRecDepth 100000
set_option maxHeartbeats 1000000

/-! ### Helper lemmas -/

/-- The numeric-pattern loop of dimension 5 counts the matching
options. -/
theorem foldl_count_numeric (l : List Str) (n : Nat) :
    l.foldl (fun acc opt => if matchesNumericPattern opt then acc + 1 else acc) n =
      n + l.countP matchesNumericPattern := by
  induction l generalizing n with
  | nil => simp
  | cons a l ih =>
    simp only [List.foldl_cons, List.countP_cons, ih]
    cases h : matchesNumericPattern a
    all_goals simp [h]
    all_goals omega

/-- The option-accumulation loop never introduces a duplicate. -/
theorem optionsAcc_nodup (l : List Str) :
    ∀ acc : List Str, acc.Nodup →
      (l.foldl (fun acc o =>
        if cleanOption o ≠ [] ∧ cleanOption o ∉ acc then acc ++ [cleanOption o] else acc)
        acc).Nodup := by
  induction l with
  | nil => intro acc h; simpa using h
  | cons a l ih =>
    intro acc h
    rw [List.foldl_cons]
    by_cases hc : cleanOption a ≠ [] ∧ cleanOption a ∉ acc
    · rw [if_pos hc]
      exact ih _ (by simp [List.nodup_append, h, hc.2])
    · rw [if_neg hc]
      exact ih _ h

/-- Stable insertion is a permutation of consing. -/
theorem insertByKey_perm (a : Str) (l : List Str) : (insertByKey a l).Perm (a :: l) := by
  induction l with
  | nil => simp [insertByKey]
  | cons b bs ih =>
    rw [insertByKey]
    by_cases h : optKey b < optKey a
    · simp only [h, if_true]
      exact (ih.cons b).trans (List.Perm.swap a b bs)
    · simp [h]

/-- The stable sort permutes its input. -/
theorem sortOptions_perm (l : List Str) : (sortOptions l).Perm l := by
  induction l with
  | nil => simp [sortOptions]
  | cons a as ih => exact (insertByKey_perm a (sortOptions as)).trans (ih.cons a)

/-- The extracted option list of a block has no duplicates. -/
theorem extractOptions_nodup (block : Str) : (extractOptions block).Nodup := by
  unfold extractOptions
  exact (sortOptions_perm _).nodup_iff.mpr (optionsAcc_nodup _ [] List.nodup_nil)

/-- A successful `findSome?` result comes from a list element. -/
theorem findSome_eq_some_mem {α β : Type} (f : α → Option β) (l : List α) (b : β)
    (h : l.findSome? f = some b) : ∃ a, a ∈ l ∧ f a = some b := by
  induction l with
  | nil => simp [List.findSome?] at h
  | cons a l ih =>
    rw [List.findSome?_cons] at h
    revert h
    cases hfa : f a with
    | some c =>
      intro h
      exact ⟨a, List.mem_cons_self a l, hfa.trans h⟩
    | none =>
      intro h
      obtain ⟨x, hx, hfx⟩ := ih h
      exact ⟨x, List.mem_cons_of_mem a hx, hfx⟩

/-- A first-some fold produces a value satisfying any property that
every per-element result and the initial accumulator satisfy. -/
theorem foldl_firstSome_mem {β : Type} (g : β → Option Str) (l : List β) (P : Str → Prop)
    (hg : ∀ b o, g b = some o → P o) :
    ∀ (acc : Option Str), (∀ o, acc = some o → P o) →
      ∀ o, l.foldl (fun acc b =>
        match acc with
        | some r => some r
        | none => g b) acc = some o → P o := by
  induction l with
  | nil => intro acc hacc o h; exact hacc o h
  | cons b l ih =>
    intro acc hacc o h
    rw [List.foldl_cons] at h
    cases acc with
    | some r => exact ih (some r) hacc o h
    | none => exact ih (g b) (fun o' ho' => hg b o' ho') o h

/-- The proximity fold yields either the initial accumulator or an
option from the list. -/
theorem proxFold_mem (window : Str) (sp : Nat) (l : List Str) :
    ∀ (acc : Option (Str × Nat)) (r : Str × Nat),
      l.foldl (fun acc opt =>
        match findSub opt window with
        | none => acc
        | some p =>
          let d := absDiff p sp
          match acc with
          | none => some (opt, d)
          | some best => if d < best.2 then some (opt, d) else acc) acc = some r →
      acc = some r ∨ r.1 ∈ l := by
  induction l with
  | nil => intro acc r h; exact Or.inl h
  | cons a l ih =>
    intro acc r h
    rw [List.foldl_cons] at h
    rcases ih _ r h with hstep | hmem
    · cases hfind : findSub a window with
      | none =>
        rw [hfind] at hstep
        exact Or.inl hstep
      | some p =>
        rw [hfind] at hstep
        cases acc with
        | none =>
          simp only [Option.some.injEq] at hstep
          exact Or.inr (by rw [← hstep]; exact List.mem_cons_self a l)
        | some best =>
          by_cases hd : absDiff p sp < best.2
          · simp only [hd, if_true, Option.some.injEq] at hstep
            exact Or.inr (by rw [← hstep]; exact List.mem_cons_self a l)
          · simp only [hd, if_false] at hstep
            exact Or.inl hstep
    · exact Or.inr (List.mem_cons_of_mem a hmem)

/-- An `if c then some x else none` result determines its value. -/
theorem if_some_eq {α : Type} {c : Prop} [Decidable c] {x o : α}
    (h : (if c then some x else none) = some o) : o = x := by
  by_cases hc : c
  · rw [if_pos hc] at h
    exact (Option.some.inj h).symm
  · rw [if_neg hc] at h
    exact absurd h (by simp)

/-- The proximity method only returns extracted options. -/
theorem proximitySelect_mem (block : Str) (options : List Str) (pos : Nat) (o : Str)
    (h : proximitySelect block options pos = some o) : o ∈ options := by
  simp only [proximitySelect, Option.map_eq_some'] at h
  obtain ⟨⟨o', d⟩, hfold, rfl⟩ := h
  rcases proxFold_mem _ _ options none _ hfold with hacc | hmem
  · exact absurd hacc (by simp)
  · exact hmem

/-- The heading method only returns extracted options. -/
theorem headingSelect_mem (block : Str) (options : List Str) (o : Str)
    (h : headingSelect block options = some o) : o ∈ options := by
  unfold headingSelect at h
  refine foldl_firstSome_mem _ correct_answer_section_patterns (fun o => o ∈ options)
    ?_ none (by simp) o h
  intro ts o' ho'
  revert ho'
  cases hm : findTokMatch ts (lowerStr block) 0 with
  | none => intro ho'; exact absurd ho' (by simp)
  | some m =>
    obtain ⟨st, cs, en⟩ := m
    intro ho'
    obtain ⟨a, ha, hfa⟩ := findSome_eq_some_mem _ _ _ ho'
    rw [if_some_eq hfa]
    exact ha

/-- The checked-attribute method only returns extracted options. -/
theorem checkedSelect_mem (block : Str) (options : List Str) (o : Str)
    (h : checkedSelect block options = some o) : o ∈ options := by
  unfold checkedSelect at h
  revert h
  cases hm : findTokMatch checked_toks block 0 with
  | none => intro h; exact absurd h (by simp)
  | some m =>
    obtain ⟨st, cs, en⟩ := m
    intro h
    obtain ⟨a, ha, hfa⟩ := findSome_eq_some_mem _ _ _ h
    rw [if_some_eq hfa]
    exact ha

/-- The aria-label method only returns extracted options. -/
theorem ariaSelect_mem (block : Str) (options : List Str) (o : Str)
    (h : ariaSelect block options = some o) : o ∈ options := by
  unfold ariaSelect at h
  refine foldl_firstSome_mem _ correct_label_variants (fun o => o ∈ options)
    ?_ none (by simp) o h
  intro ind o' ho'
  obtain ⟨mstart, _, hinner⟩ := findSome_eq_some_mem _ _ _ ho'
  obtain ⟨a, ha, hfa⟩ := findSome_eq_some_mem _ _ _ hinner
  have hoa : o' = a := by
    split at hfa
    · split at hfa
      · split at hfa
        · exact (Option.some.inj hfa).symm
        · exact absurd hfa (by simp)
      · exact absurd hfa (by simp)
    · exact absurd hfa (by simp)
  rwa [hoa]

/-- Steps 1–3 only return extracted options. -/
theorem statusMethod_mem (block : Str) (options : List Str) (o : Str)
    (h : statusMethod block options = some o) : o ∈ options := by
  unfold statusMethod at h
  cases hs : detectStatus block with
  | none => rw [hs] at h; exact absurd h (by simp)
  | some r =>
    obtain ⟨st, pos⟩ := r
    rw [hs] at h
    cases st with
    | correct => exact proximitySelect_mem block options pos o h
    | incorrect => exact headingSelect_mem block options o h

/-- The whole method chain only returns extracted options. -/
theorem answer_method_chain_mem (block : Str) (options : List Str) (o : Str)
    (h : answer_method_chain block options = some o) : o ∈ options := by
  unfold answer_method_chain at h
  cases h1 : statusMethod block options with
  | some r =>
    rw [h1] at h
    simp only [Option.orElse] at h
    exact statusMethod_mem block options o (by rw [h1, ← h])
  | none =>
    rw [h1] at h
    cases h2 : checkedSelect block options with
    | some r =>
      rw [h2] at h
      simp only [Option.orElse] at h
      exact checkedSelect_mem block options o (by rw [h2, ← h])
    | none =>
      rw [h2] at h
      simp only [Option.orElse] at h
      exact ariaSelect_mem block options o h

/-- The resolved answer of a block with options is always one of the
options. -/
theorem resolveAnswer_mem (block : Str) (options : List Str) (h : options ≠ []) :
    resolveAnswer block options ∈ options := by
  unfold resolveAnswer
  cases hc : answer_method_chain block options with
  | some o => exact answer_method_chain_mem block options o hc
  | none =>
    cases options with
    | nil => exact absurd rfl h
    | cons q qs => exact List.mem_cons_self q qs

/-- The dedup loop leaves its own output unchanged (over any seen
set). -/
theorem dedupLoop_idem : ∀ (l : List QuizItem) (seen : List Str),
    dedupLoop (dedupLoop l seen) seen = dedupLoop l seen
  | [], _ => rfl
  | q :: rest, seen => by
    by_cases h : normalize_question_text q.question ∈ seen
    · rw [dedupLoop, if_pos h, dedupLoop_idem rest seen]
    · have e : dedupLoop (q :: rest) seen =
          q :: dedupLoop rest (normalize_question_text q.question :: seen) := by
        rw [dedupLoop, if_neg h]
      rw [e, dedupLoop, if_neg h,
        dedupLoop_idem rest (normalize_question_text q.question :: seen)]


/-! ### Claim theorems -/

/-- C1 (counterexample).  The claim "`correctAnswer` is not a member of
`wrongAnswers` after leading option-markers are stripped from both" fails
on the concrete block whose extracted options are `"A. Paris"` and
`"B. Paris"`: the emitted record has `correctAnswer = "Paris"` and
`wrongAnswers = ["Paris"]`. -/
theorem strip_collision_counterexample :
    (processBlock "deck".data 0 "t0".data 0 blockTwoParis).map
      (fun it => (it.correctAnswer, it.wrongAnswers)) =
      some ("Paris".data, ["Paris".data]) ∧
    "Paris".data ∈ ["Paris".data] :=
  ⟨by decide, by decide⟩

/-- C1 (amended).  For every record emitted by the per-block extraction,
the invariant holds of the raw (pre-strip) options: the extracted
options are duplicate-free, the resolved raw answer is one of them, the
emitted `correctAnswer` and `wrongAnswers` are the marker-stripped forms
of the raw answer and of the remaining raw options, and the raw answer
is not among the raw wrong options, which are themselves
duplicate-free.  (After marker stripping the disjointness can fail, see
the counterexample.) -/
theorem raw_answer_invariant (deckName : Str) (idBase : Nat) (currentTime : Str)
    (i : Nat) (block : Str) (item : QuizItem)
    (h : processBlock deckName idBase currentTime i block = some item) :
    (extractOptions block).Nodup ∧
    resolveAnswer block (extractOptions block) ∈ extractOptions block ∧
    item.correctAnswer = cleanAnswer (resolveAnswer block (extractOptions block)) ∧
    item.wrongAnswers = ((extractOptions block).filter
      (fun o => o ≠ resolveAnswer block (extractOptions block))).map cleanWrongAnswer ∧
    resolveAnswer block (extractOptions block) ∉ (extractOptions block).filter
      (fun o => o ≠ resolveAnswer block (extractOptions block)) ∧
    ((extractOptions block).filter
      (fun o => o ≠ resolveAnswer block (extractOptions block))).Nodup := by
  unfold processBlock at h
  by_cases he : (extractOptions block).isEmpty
  · rw [if_pos he] at h
    exact absurd h (by simp)
  · rw [if_neg he] at h
    have hne : extractOptions block ≠ [] := by
      simpa [List.isEmpty_iff] using he
    refine ⟨extractOptions_nodup block, resolveAnswer_mem block _ hne, ?_, ?_, ?_, ?_⟩
    · rw [← Option.some.inj h]
    · rw [← Option.some.inj h]
    · simp [List.mem_filter]
    · exact (extractOptions_nodup block).filter _

/-- C1 (witness). -/
theorem raw_answer_invariant_witness :
    (extractOptions blockTwoParis).Nodup ∧
    resolveAnswer blockTwoParis (extractOptions blockTwoParis) ∈ extractOptions blockTwoParis ∧
    (sampleItemTwoParis).correctAnswer =
      cleanAnswer (resolveAnswer blockTwoParis (extractOptions blockTwoParis)) ∧
    (sampleItemTwoParis).wrongAnswers = ((extractOptions blockTwoParis).filter
      (fun o => o ≠ resolveAnswer blockTwoParis (extractOptions blockTwoParis))).map
        cleanWrongAnswer ∧
    resolveAnswer blockTwoParis (extractOptions blockTwoParis) ∉
      (extractOptions blockTwoParis).filter
        (fun o => o ≠ resolveAnswer blockTwoParis (extractOptions blockTwoParis)) ∧
    ((extractOptions blockTwoParis).filter
      (fun o => o ≠ resolveAnswer blockTwoParis (extractOptions blockTwoParis))).Nodup :=
  raw_answer_invariant "deck".data 0 "t0".data 0 blockTwoParis sampleItemTwoParis (by decide)

/-- C2 (counterexample).  On a document with a locatable HTML part, a
decoding failure makes the extraction return the decode error outcome
(no data, no file written) — it does not fall back to processing the
undecoded slice, which (second conjunct) would have produced quiz
data. -/
theorem decode_abort_counterexample :
    extract_quiz_from_mhtml (fun _ => Except.error "boom".data) pure_callback
      "f".data "d".data "o".data 0 "t".data docOneQuestion =
      Except.ok ⟨none, decodeErrMsg "boom".data, false⟩ ∧
    ((extract_quiz_from_mhtml (fun s => Except.ok s) pure_callback
      "f".data "d".data "o".data 0 "t".data docOneQuestion).toOption.map
        (fun o => o.data.isSome)) = some true :=
  ⟨by decide, by decide⟩

/-- C2 (amended).  When the HTML part is located but quoted-printable
decoding throws, the extraction aborts with the decode error message:
no data is produced and no output file is written (there is no fallback
to the undecoded slice). -/
theorem decode_failure_aborts (decodeFn : Str → Except Str Str)
    (mhtmlName deckName outputFile : Str) (idBase : Nat)
    (currentTime content h e : Str)
    (hhtml : find_html_part content = some h)
    (hdec : decodeFn h = Except.error e) :
    extract_quiz_from_mhtml decodeFn pure_callback mhtmlName deckName outputFile
      idBase currentTime content = Except.ok ⟨none, decodeErrMsg e, false⟩ := by
  unfold extract_quiz_from_mhtml
  rw [hhtml]
  show extract_html_located decodeFn pure_callback deckName outputFile idBase
    currentTime h = Except.ok ⟨none, decodeErrMsg e, false⟩
  unfold extract_html_located
  rw [hdec]
  rfl

/-- C2 (witness). -/
theorem decode_failure_aborts_witness :
    extract_quiz_from_mhtml (fun _ => Except.error "ex".data) pure_callback
      "m".data "d".data "o".data 0 "t".data docNoQuestions =
      Except.ok ⟨none, decodeErrMsg "ex".data, false⟩ :=
  decode_failure_aborts (fun _ => Except.error "ex".data) "m".data "d".data "o".data 0
    "t".data docNoQuestions "hello world".data "ex".data (by decide) (by decide)

/-- C3.  For a block whose extracted option list is non-empty, the
resolver returns exactly one answer which is one of the extracted
options; when the whole method chain fails it is the first option in
sorted order; and the record is still emitted (the per-block step
returns `some`). -/
theorem resolver_totality (deckName : Str) (idBase : Nat) (currentTime : Str)
    (i : Nat) (block : Str) (h : extractOptions block ≠ []) :
    resolveAnswer block (extractOptions block) ∈ extractOptions block ∧
    (answer_method_chain block (extractOptions block) = none →
      resolveAnswer block (extractOptions block) = (extractOptions block).headD []) ∧
    (processBlock deckName idBase currentTime i block).isSome := by
  refine ⟨resolveAnswer_mem block _ h, ?_, ?_⟩
  · intro hchain
    unfold resolveAnswer
    rw [hchain]
    rfl
  · unfold processBlock
    rw [if_neg (by simpa [List.isEmpty_iff] using h)]
    simp

/-- C3 (witness). -/
theorem resolver_totality_witness :
    resolveAnswer blockPlain (extractOptions blockPlain) ∈ extractOptions blockPlain ∧
    (answer_method_chain blockPlain (extractOptions blockPlain) = none →
      resolveAnswer blockPlain (extractOptions blockPlain) =
        (extractOptions blockPlain).headD []) ∧
    (processBlock "d".data 0 "t".data 0 blockPlain).isSome :=
  resolver_totality "d".data 0 "t".data 0 blockPlain (by decide)

/-- C4.  For a block whose extracted options are `["A. Paris",
"B. London", "C. Berlin", "D. Madrid"]`, with a detected correct-status
indicator and proximity selection picking `"B. London"`, the emitted
record has `correctAnswer = "London"` and `wrongAnswers = ["Paris",
"Berlin", "Madrid"]` (order preserved, markers stripped). -/
theorem proximity_scenario (deckName : Str) (idBase : Nat) (currentTime : Str)
    (i : Nat) (block : Str) (pos : Nat)
    (hopts : extractOptions block = parisOptions)
    (hstatus : detectStatus block = some (.correct, pos))
    (hprox : proximitySelect block parisOptions pos = some "B. London".data) :
    (processBlock deckName idBase currentTime i block).map
      (fun it => (it.correctAnswer, it.wrongAnswers)) =
      some ("London".data, ["Paris".data, "Berlin".data, "Madrid".data]) := by
  have hsm : statusMethod block parisOptions = some "B. London".data := by
    unfold statusMethod
    rw [hstatus]
    exact hprox
  have hchain : answer_method_chain block parisOptions = some "B. London".data := by
    unfold answer_method_chain
    rw [hsm]
    rfl
  have hresolve : resolveAnswer block parisOptions = "B. London".data := by
    unfold resolveAnswer
    rw [hchain]
    rfl
  simp only [processBlock, hopts, hresolve]
  rw [if_neg (by decide : ¬(parisOptions.isEmpty = true))]
  show some (cleanAnswer "B. London".data,
      (parisOptions.filter (fun o => o ≠ "B. London".data)).map cleanWrongAnswer) =
    some ("London".data, ["Paris".data, "Berlin".data, "Madrid".data])
  decide

/-- C4 (witness). -/
theorem proximity_scenario_witness :
    (processBlock "d".data 0 "t".data 0 blockLondon).map
      (fun it => (it.correctAnswer, it.wrongAnswers)) =
      some ("London".data, ["Paris".data, "Berlin".data, "Madrid".data]) :=
  proximity_scenario "d".data 0 "t".data 0 blockLondon 139 (by decide) (by decide)
    (by decide)

/-- C5 (counterexample).  With options `["1.5", "2.5"]` (no technical
terms, short options) the source's answer-choice complexity score is 2 —
one point per numerically-matching option — while the claimed "+1 if any
option matches" yields 1. -/
theorem numeric_bonus_counterexample :
    answer_complexity_score ["1.5".data, "2.5".data] = 2 ∧
    answer_complexity_score_claim ["1.5".data, "2.5".data] = 1 :=
  ⟨by decide, by decide⟩

/-- C5 (amended).  For a non-empty option list, the answer-choice
complexity score is the length-threshold score plus the technical-term
count capped at 2 plus one point for each option matching some
numeric/formula pattern (the bonus is the number of matching options,
not +1 total). -/
theorem answer_complexity_decomposition (options : List Str) (h : options ≠ []) :
    answer_complexity_score options =
      option_length_score (options.map stripUpperMarker) +
      min (option_technical_count (options.map stripUpperMarker)) 2 +
      (options.map stripUpperMarker).countP matchesNumericPattern := by
  unfold answer_complexity_score
  rw [if_neg (by simpa [List.isEmpty_iff] using h)]
  rw [foldl_count_numeric]

/-- C5 (witness). -/
theorem answer_complexity_decomposition_witness :
    answer_complexity_score ["7.5".data] =
      option_length_score (["7.5".data].map stripUpperMarker) +
      min (option_technical_count (["7.5".data].map stripUpperMarker)) 2 +
      (["7.5".data].map stripUpperMarker).countP matchesNumericPattern :=
  answer_complexity_decomposition ["7.5".data] (by decide)

/-- C6 (counterexample).  A callback that raises aborts the extraction:
with the raising callback the pipeline returns the callback's exception,
while with a harmless callback the same document produces its normal
outcome. -/
theorem callback_abort_counterexample :
    extract_quiz_from_mhtml (fun s => Except.ok s) (fun _ => Except.error "cbfail".data)
      "f".data "d".data "o".data 0 "t".data docNoQuestions =
      Except.error "cbfail".data ∧
    extract_quiz_from_mhtml (fun s => Except.ok s) pure_callback
      "f".data "d".data "o".data 0 "t".data docNoQuestions =
      Except.ok ⟨none, noQuestionsMsg, false⟩ :=
  ⟨by decide, by decide⟩

/-- C6 (amended).  A progress callback whose first invocation raises
aborts the whole extraction with that exception: the source never
guards the callback calls, so the failure propagates. -/
theorem callback_failure_propagates (decodeFn : Str → Except Str Str)
    (cb : Str → Except Str Unit) (mhtmlName deckName outputFile : Str)
    (idBase : Nat) (currentTime content e : Str)
    (hcb : cb "Reading MHTML file...".data = Except.error e) :
    extract_quiz_from_mhtml decodeFn cb mhtmlName deckName outputFile idBase
      currentTime content = Except.error e := by
  unfold extract_quiz_from_mhtml
  rw [hcb]
  rfl

/-- C6 (witness). -/
theorem callback_failure_propagates_witness :
    extract_quiz_from_mhtml (fun s => Except.ok s) (fun _ => Except.error "x".data)
      "m".data "d".data "o".data 0 "t".data docOneQuestion =
      Except.error "x".data :=
  callback_failure_propagates (fun s => Except.ok s) (fun _ => Except.error "x".data)
    "m".data "d".data "o".data 0 "t".data docOneQuestion "x".data (by decide)

/-- C7.  When the decoded HTML contains zero question blocks, the
extraction returns the no-questions failure outcome: no data, the
"No questions found" message, and no output file written. -/
theorem no_questions_outcome (decodeFn : Str → Except Str Str)
    (mhtmlName deckName outputFile : Str) (idBase : Nat)
    (currentTime content h decoded : Str)
    (hhtml : find_html_part content = some h)
    (hdec : decodeFn h = Except.ok decoded)
    (hblocks : findBlocks decoded = []) :
    extract_quiz_from_mhtml decodeFn pure_callback mhtmlName deckName outputFile
      idBase currentTime content = Except.ok ⟨none, noQuestionsMsg, false⟩ := by
  unfold extract_quiz_from_mhtml
  rw [hhtml]
  show extract_html_located decodeFn pure_callback deckName outputFile idBase
    currentTime h = Except.ok ⟨none, noQuestionsMsg, false⟩
  unfold extract_html_located
  rw [hdec]
  show extract_decoded pure_callback deckName outputFile idBase currentTime decoded =
    Except.ok ⟨none, noQuestionsMsg, false⟩
  unfold extract_decoded
  rw [hblocks]
  rfl

/-- C7 (witness). -/
theorem no_questions_outcome_witness :
    extract_quiz_from_mhtml (fun s => Except.ok s) pure_callback "m".data "d".data
      "o".data 0 "t".data docNoQuestions = Except.ok ⟨none, noQuestionsMsg, false⟩ :=
  no_questions_outcome (fun s => Except.ok s) "m".data "d".data "o".data 0 "t".data
    docNoQuestions "hello world".data "hello world".data (by decide) (by decide)
    (by decide)

/-- C8.  The Dataset Assembler dedup pass is idempotent: applied to its
own output it removes no further records. -/
theorem dedup_idempotent (l : List QuizItem) :
    dedupQuizzes (dedupQuizzes l) = dedupQuizzes l :=
  dedupLoop_idem l []

/-- C9 (counterexample).  Merging the empty dataset with itself does not
yield a `2·0`-record dataset: the source treats an empty merged list as
a failure and returns the no-valid-data error. -/
theorem merge_empty_counterexample :
    merge_quiz_files [some ([] : List QuizItem), some []] =
      Except.error "No valid quiz data found in any of the files.".data := by
  decide

/-- C9 (amended).  Merging a non-empty dataset of `K` records with
itself (two inputs) yields exactly the concatenation of the two input
arrays in input order — `2K` records, with no deduplication. -/
theorem merge_self_doubles (d : List QuizItem) (h : d ≠ []) :
    merge_quiz_files [some d, some d] = Except.ok (d ++ d) ∧
    (d ++ d).length = 2 * d.length := by
  have he : d.isEmpty = false := by simpa [List.isEmpty_iff] using h
  constructor
  · unfold merge_quiz_files
    simp only [List.foldl_cons, List.foldl_nil, he, if_false, Bool.false_eq_true,
      List.nil_append]
    rw [if_neg (by simp [List.isEmpty_iff, h])]
  · simp [Nat.two_mul]

/-- C9 (witness). -/
theorem merge_self_doubles_witness :
    merge_quiz_files [some [sampleItem], some [sampleItem]] =
      Except.ok ([sampleItem] ++ [sampleItem]) ∧
    ([sampleItem] ++ [sampleItem]).length = 2 * [sampleItem].length :=
  merge_self_doubles [sampleItem] (by decide)

/-- C10.  The difficulty classification never consults its
correct-answer argument: any two values give the same label. -/
theorem difficulty_ignores_correct_answer (question_text : Str) (options : List Str)
    (a b : Str) :
    analyze_question_difficulty question_text options a =
      analyze_question_difficulty question_text options b := rfl


end QuizToolkit
